import Mathlib

/-
Verification development for the jvm-function-invoker-buildpack build phase
(src/bin/bp_build.rs). The `build` function below is a shallow embedding of
the Rust `build(ctx)` function: external effects (config lookup, layer
metadata persistence, the HTTP download, the detector subprocess, the
manifest file read) are modelled by explicit inputs in `BuildInput` and an
explicit trace of side-effecting events (`Event`). Logging (header/info/
debug/warning) has no observable effect on the pipeline and is not traced.
OS-level failures of spawn/wait and non-UTF-8 paths are out of scope (paths
are Lean strings, always UTF-8).
-/

namespace BpBuild

/-- Model of `toml::Value` restricted to the scalar cases relevant here
(the configuration values compared and stored by bp_build.rs); arrays,
tables, floats and datetimes are elided. Rust `==` on `toml::Value` is
modelled by decidable equality. -/
inductive TomlVal
  | str (s : String)
  | int (n : Int)
  | boolean (b : Bool)
  deriving DecidableEq, Repr

/-- Lookup of a key in a toml table, modelled as an association list
(first match wins, as in a map with unique keys). -/
def getKey (k : String) : List (String × TomlVal) → Option TomlVal
  | [] => none
  | (k2, v) :: rest => if k2 = k then some v else getKey k rest

/-- Map insert (`content_metadata.metadata.insert`): replaces an existing
binding for the key or appends a new one. -/
def insertKey (k : String) (v : TomlVal) : List (String × TomlVal) → List (String × TomlVal)
  | [] => [(k, v)]
  | (k2, v2) :: rest => if k2 = k then (k, v) :: rest else (k2, v2) :: insertKey k v rest

/-- `toml::Value::as_str`: some string when the value is a string. -/
def TomlVal.asStr : TomlVal → Option String
  | .str s => some s
  | _ => none

/-- The parsed `function` table of `function-bundle.toml`
(struct `Function` in bp_build.rs; the field `class` is renamed `class_`
because `class` is a Lean keyword). -/
structure Function where
  class_ : String
  payload_class : String
  payload_media_type : String
  return_class : String
  return_media_type : String
  deriving DecidableEq, Repr

/-- State of the `function-bundle.toml` file inside the function-bundle
layer after the detector ran: absent (fs::read fails), present but not
parseable as `FunctionBundleToml` (toml::from_slice fails), or valid. -/
inductive ManifestFile
  | missing
  | malformed
  | valid (f : Function)
  deriving DecidableEq, Repr

/-- The three boolean facets of a layer's content metadata
(`launch` / `build` / `cache` on `ContentMetadata`). -/
structure Facets where
  launch : Bool
  build : Bool
  cache : Bool
  deriving DecidableEq, Repr

/-- A single process entry of the launch descriptor
(`libcnb::data::launch::Process`); the fourth argument of `Process::new`
is the boolean `direct` flag of the process table entry. -/
structure Process where
  type : String
  command : String
  args : List String
  direct : Bool
  deriving DecidableEq, Repr

/-- `libcnb::data::launch::Launch`: the list of process entries built by
the phase. -/
structure Launch where
  processes : List Process
  deriving DecidableEq, Repr

/-- Observable steps of the pipeline, in execution order. `writeMetadata`
is `write_content_metadata` on the named layer, recording the facets and
the metadata map persisted; `download` is the blocking HTTP fetch; `spawn`
is the detector subprocess invocation; `readManifest` is the `fs::read` of
`function-bundle.toml`; `buildLaunch` is the in-memory construction of the
launch value at lines 200-210 — the source then returns `Ok(())` and drops
that value without writing it back to the platform, so no later event
emits it. -/
inductive Event
  | writeMetadata (layerName : String) (facets : Facets) (metadata : List (String × TomlVal))
  | download (url : String) (dest : String)
  | spawn (program : String) (args : List String)
  | readManifest (path : String)
  | buildLaunch (l : Launch)
  deriving DecidableEq, Repr

/-- Distinct error identities of the phase. In the Rust code each is an
`anyhow` error: the config lookups fail via `ok_or_else(|| anyhow!(...))`,
the detector exit codes and the failed download fail via the `error(title,
body)` helper (which returns `Err(anyhow!(title))`), and the manifest read
and parse fail by propagating the io / toml deserialization error. -/
inductive BuildError
  | missingRuntimeKey
  | missingSha256Key
  | missingUrlKey
  | urlNotString
  | downloadFailed
  | noFunctionsFound
  | multipleFunctionsFound
  | detectionInternal (code : Int)
  | detectionUnexpected (code : Int)
  | manifestReadFailed
  | manifestParseFailed
  deriving DecidableEq, Repr

/-- All external inputs one invocation of `build` can observe:
the `HEROKU_BUILDPACK_DEBUG` env flag, the `metadata.runtime` table of
buildpack.toml (`none` when the key is absent or not a table), the
persisted metadata of the two layers from prior runs, whether
`<runtime-layer>/runtime.jar` exists on disk, the relevant paths, whether
the download succeeds, the detector's exit status (`none` = terminated by
signal, no exit code), and the state of the manifest file the detector
leaves behind. -/
structure BuildInput where
  herokuDebug : Bool
  runtimeTable : Option (List (String × TomlVal))
  runtimeLayerMetadata : List (String × TomlVal)
  functionBundleMetadata : List (String × TomlVal)
  runtimeJarExists : Bool
  appDir : String
  runtimeLayerPath : String
  functionBundlePath : String
  downloadOk : Bool
  detectorExit : Option Int
  manifestFile : ManifestFile
  deriving DecidableEq, Repr

/-- The cache-validity decision at line 70 of bp_build.rs:
`buildpack_sha256 == runtime_layer_sha256 && runtime_jar_path.exists()`. -/
def cacheValid (expected cached : TomlVal) (jarExists : Bool) : Bool :=
  decide (expected = cached) && jarExists

/-- Classification of the detector exit status (lines 142-180). The Rust
code is `if let Some(code) = exit_status.code() { match code { ... }? }`:
a present non-zero code maps to an error, code 0 to no error, and a
missing code (signal termination) skips the whole block, so it also maps
to no error and execution proceeds. -/
def classifyExit : Option Int → Option BuildError
  | none => none
  | some c =>
    if c = 0 then none
    else if c = 1 then some .noFunctionsFound
    else if c = 2 then some .multipleFunctionsFound
    else if 3 ≤ c ∧ c ≤ 6 then some (.detectionInternal c)
    else some (.detectionUnexpected c)

/-- The command string built at lines 201-204:
`format!("java -jar {} serve {} -p \\$\x7b\x7bPORT:-8080\x7d\x7d", ...)`,
i.e. a literal backslash, then `$\x7bPORT:-8080\x7d`. -/
def launchCommand (runtimeJar functionBundle : String) : String :=
  "java -jar " ++ runtimeJar ++ " serve " ++ functionBundle ++ " -p \\$\x7bPORT:-8080\x7d"

/-- The launch value built at lines 200-210: one process, type "web",
the assembled command, empty args, and `false` for the fourth
`Process::new` argument. -/
def assembleLaunch (runtimeJar functionBundle : String) : Launch :=
  { processes := [{ type := "web"
                  , command := launchCommand runtimeJar functionBundle
                  , args := []
                  , direct := false }] }

/-- Shallow embedding of `build(ctx)` (bp_build.rs lines 37-213). Returns
the phase result together with the trace of observable events. The source
function returns `anyhow::Result<()>`, so success carries no data: the
launch value assembled at lines 200-210 appears in the trace as a
`buildLaunch` event and is then dropped — nothing writes it back to the
platform. -/
def runtimeJarStr (i : BuildInput) : String :=
  i.runtimeLayerPath ++ "/runtime.jar"

/-- The runtime-layer persistence performed at lines 74-90: facets
`launch: true, build: false, cache: true` and the metadata with
`runtime_jar_url` set (the `runtime_jar_sha256` insert is commented out in
the source). -/
def runtimeLayerWrite (i : BuildInput) (runtime_url : TomlVal) : Event :=
  .writeMetadata "sf-fx-runtime-java" ⟨true, false, true⟩
    (insertKey "runtime_jar_url" runtime_url i.runtimeLayerMetadata)

/-- The function-bundle-layer persistence performed at lines 123-127:
facets `launch: true, build: false, cache: false`, metadata untouched. -/
def bundleLayerWrite (i : BuildInput) : Event :=
  .writeMetadata "function-bundle" ⟨true, false, false⟩ i.functionBundleMetadata

/-- The detector invocation at lines 129-140:
`java -jar <runtime.jar> bundle <app-dir> <bundle-layer>`. -/
def spawnDetector (i : BuildInput) : Event :=
  .spawn "java" ["-jar", runtimeJarStr i, "bundle", i.appDir, i.functionBundlePath]

def build (i : BuildInput) : Except BuildError Unit × List Event :=
  match i.runtimeTable with
  | none => (.error .missingRuntimeKey, [])
  | some rt =>
    match getKey "sha256" rt with
    | none => (.error .missingSha256Key, [])
    | some buildpack_sha256 =>
      if cacheValid buildpack_sha256
          ((getKey "runtime_jar_sha256" i.runtimeLayerMetadata).getD (.str ""))
          i.runtimeJarExists then
        (.ok (), [.buildLaunch (assembleLaunch (runtimeJarStr i) i.functionBundlePath)])
      else
        match getKey "url" rt with
        | none => (.error .missingUrlKey, [])
        | some runtime_url =>
          match runtime_url.asStr with
          | none => (.error .urlNotString, [runtimeLayerWrite i runtime_url])
          | some urlStr =>
            if !i.downloadOk then
              (.error .downloadFailed,
                [runtimeLayerWrite i runtime_url, .download urlStr (runtimeJarStr i)])
            else
              match classifyExit i.detectorExit with
              | some e =>
                (.error e,
                  [runtimeLayerWrite i runtime_url, .download urlStr (runtimeJarStr i),
                    bundleLayerWrite i, spawnDetector i])
              | none =>
                match i.manifestFile with
                | .missing =>
                  (.error .manifestReadFailed,
                    [runtimeLayerWrite i runtime_url, .download urlStr (runtimeJarStr i),
                      bundleLayerWrite i, spawnDetector i,
                      .readManifest (i.functionBundlePath ++ "/function-bundle.toml")])
                | .malformed =>
                  (.error .manifestParseFailed,
                    [runtimeLayerWrite i runtime_url, .download urlStr (runtimeJarStr i),
                      bundleLayerWrite i, spawnDetector i,
                      .readManifest (i.functionBundlePath ++ "/function-bundle.toml")])
                | .valid _ =>
                  (.ok (),
                    [runtimeLayerWrite i runtime_url, .download urlStr (runtimeJarStr i),
                      bundleLayerWrite i, spawnDetector i,
                      .readManifest (i.functionBundlePath ++ "/function-bundle.toml"),
                      .buildLaunch (assembleLaunch (runtimeJarStr i) i.functionBundlePath)])

/-- Whether a phase result is a success. -/
def isOkResult : Except BuildError Unit → Bool
  | .ok _ => true
  | .error _ => false

/-- The launch values constructed during a run, in order. -/
def launchBuilds (l : List Event) : List Launch :=
  l.filterMap fun e => match e with | .buildLaunch lv => some lv | _ => none

/-- Whether a trace contains a download (network fetch) event. -/
def hasDownload (l : List Event) : Bool :=
  l.any fun e => match e with | .download _ _ => true | _ => false

/-- Whether a trace contains a detector spawn event. -/
def hasSpawn (l : List Event) : Bool :=
  l.any fun e => match e with | .spawn _ _ => true | _ => false

/-- Whether a trace contains a manifest read event. -/
def readsManifest (l : List Event) : Bool :=
  l.any fun e => match e with | .readManifest _ => true | _ => false

/-- The metadata maps persisted to the runtime layer during a run. -/
def runtimeWrites (l : List Event) : List (List (String × TomlVal)) :=
  l.filterMap fun e => match e with
    | .writeMetadata "sf-fx-runtime-java" _ m => some m
    | _ => none

/-- The runtime layer metadata as the platform persists it after a run:
the last metadata map written to the `sf-fx-runtime-java` layer, or the
prior metadata when the run wrote nothing. -/
def metadataAfter (i : BuildInput) : List (String × TomlVal) :=
  (runtimeWrites (build i).2).getLastD i.runtimeLayerMetadata

/-- Whether `runtime.jar` exists after a run: it already existed, or the
run's download completed successfully. -/
def jarExistsAfter (i : BuildInput) : Bool :=
  i.runtimeJarExists || (hasDownload (build i).2 && i.downloadOk)

/-- The input of a second invocation with an unchanged descriptor and no
external tampering: the same configuration and paths, with the layer state
left behind by the first run. -/
def secondRun (i : BuildInput) : BuildInput :=
  { i with runtimeLayerMetadata := metadataAfter i
           runtimeJarExists := jarExistsAfter i }

/-- `precededBy act w l` holds when the first `act` event of `l`, if any,
comes after a `w` event. -/
def precededBy (act w : Event → Bool) : List Event → Bool
  | [] => true
  | e :: rest => if w e then true else if act e then false else precededBy act w rest

/-- A persistence of the runtime layer with facets
`launch: true, build: false, cache: true` and the `runtime_jar_url`
metadata key present. -/
def isRuntimeFacetWrite : Event → Bool
  | .writeMetadata "sf-fx-runtime-java" f m =>
      decide (f = ⟨true, false, true⟩) && (getKey "runtime_jar_url" m).isSome
  | _ => false

/-- A persistence of the function-bundle layer with facets
`launch: true, build: false, cache: false`. -/
def isBundleFacetWrite : Event → Bool
  | .writeMetadata "function-bundle" f _ => decide (f = ⟨true, false, false⟩)
  | _ => false

/-- A download event. -/
def isDownloadEv : Event → Bool
  | .download _ _ => true
  | _ => false

/-- A detector spawn event. -/
def isSpawnEv : Event → Bool
  | .spawn _ _ => true
  | _ => false

/-- A baseline input: a well-formed configuration with a non-empty
expected fingerprint, empty prior layer state, a successful download, a
detector that exits 0 and a valid manifest. -/
def baseInput : BuildInput :=
  { herokuDebug := false
  , runtimeTable := some [("sha256", .str "abc"), ("url", .str "https://x/runtime.jar")]
  , runtimeLayerMetadata := []
  , functionBundleMetadata := []
  , runtimeJarExists := false
  , appDir := "/app"
  , runtimeLayerPath := "/layers/sf-fx-runtime-java"
  , functionBundlePath := "/layers/function-bundle"
  , downloadOk := true
  , detectorExit := some 0
  , manifestFile := .valid ⟨"com.example.Fn", "P", "application/json", "R", "application/json"⟩ }

theorem getKey_insertKey (k : String) (v : TomlVal) (m : List (String × TomlVal)) :
    getKey k (insertKey k v m) = some v := by
  induction m with
  | nil => simp [insertKey, getKey]
  | cons hd tl ih =>
    rcases hd with ⟨k2, v2⟩
    by_cases h : k2 = k
    · simp [insertKey, h, getKey]
    · simp [insertKey, h, getKey, ih]

theorem getKey_insertKey_ne (k2 k : String) (v : TomlVal) (m : List (String × TomlVal))
    (h : k2 ≠ k) : getKey k2 (insertKey k v m) = getKey k2 m := by
  have hk : ¬k = k2 := fun hh => h hh.symm
  induction m with
  | nil => simp [insertKey, getKey, hk]
  | cons hd tl ih =>
    rcases hd with ⟨k3, v3⟩
    by_cases h3 : k3 = k
    · subst h3
      simp [insertKey, getKey, hk]
    · simp [insertKey, getKey, h3, ih]

/-- The single metadata write to the runtime layer, when one happens, is
the prior metadata with the `runtime_jar_url` key set (lines 82-90); no
branch writes anything else to that layer. -/
theorem runtimeWrites_shape (i : BuildInput) :
    runtimeWrites (build i).2 = [] ∨
    ∃ v, runtimeWrites (build i).2 = [insertKey "runtime_jar_url" v i.runtimeLayerMetadata] := by
  rcases hb : build i with ⟨res, trace⟩
  unfold build at hb
  repeat' split at hb
  all_goals injection hb with hr ht
  all_goals subst ht
  all_goals simp [runtimeWrites, runtimeLayerWrite, bundleLayerWrite, spawnDetector]
  all_goals exact ⟨_, rfl⟩

/-- When the prior runtime-layer metadata has no `runtime_jar_sha256`
binding, the metadata persisted by a run still has none. -/
theorem metadataAfter_no_sha (i : BuildInput)
    (h0 : getKey "runtime_jar_sha256" i.runtimeLayerMetadata = none) :
    getKey "runtime_jar_sha256" (metadataAfter i) = none := by
  unfold metadataAfter
  rcases runtimeWrites_shape i with h | ⟨v, h⟩
  · rw [h]
    exact h0
  · rw [h]
    show getKey "runtime_jar_sha256" (insertKey "runtime_jar_url" v i.runtimeLayerMetadata) = none
    rw [getKey_insertKey_ne _ _ _ _ (by decide)]
    exact h0

/-- A successful run leaves `runtime.jar` on disk: either the cache check
required it to exist already, or the run downloaded it successfully. -/
theorem jar_exists_after_of_ok (i : BuildInput) (h : isOkResult (build i).1 = true) :
    jarExistsAfter i = true := by
  unfold jarExistsAfter
  rcases hb : build i with ⟨res, trace⟩
  rw [hb] at h
  unfold build at hb
  repeat' split at hb
  all_goals injection hb with hr ht
  all_goals subst hr ht
  all_goals simp_all [isOkResult, hasDownload, cacheValid, runtimeLayerWrite, bundleLayerWrite,
    spawnDetector]

/-- Every launch value a run ever constructs is the one assembled from the
runtime jar path and the function-bundle layer path (lines 200-210); both
success paths build it identically, and no other path builds one. -/
theorem mem_launchBuilds_eq (i : BuildInput) (l : Launch)
    (h : l ∈ launchBuilds (build i).2) :
    l = assembleLaunch (runtimeJarStr i) i.functionBundlePath := by
  rcases hb : build i with ⟨res, trace⟩
  rw [hb] at h
  unfold build at hb
  repeat' split at hb
  all_goals injection hb with hr ht
  all_goals subst ht
  all_goals simp_all [launchBuilds, runtimeLayerWrite, bundleLayerWrite, spawnDetector]

/-- On every successful run, exactly one launch value is constructed and
the success value itself is the unit value — the phase hands nothing back
to its caller. -/
theorem build_ok_unit_launchBuilds (i : BuildInput) (h : isOkResult (build i).1 = true) :
    (build i).1 = .ok () ∧
    launchBuilds (build i).2 = [assembleLaunch (runtimeJarStr i) i.functionBundlePath] := by
  rcases hb : build i with ⟨res, trace⟩
  rw [hb] at h
  unfold build at hb
  repeat' split at hb
  all_goals injection hb with hr ht
  all_goals subst hr ht
  all_goals simp_all [isOkResult, launchBuilds, runtimeLayerWrite, bundleLayerWrite, spawnDetector]

/-- A run that succeeds while performing no runtime-layer metadata write
and no download can only have taken the cache-hit branch, so its cache
check was true. -/
theorem ok_no_writes_cache_hit (j : BuildInput) (rt : List (String × TomlVal)) (sha : TomlVal)
    (h1 : j.runtimeTable = some rt)
    (h2 : getKey "sha256" rt = some sha)
    (hok : isOkResult (build j).1 = true)
    (hw : runtimeWrites (build j).2 = []) :
    cacheValid sha ((getKey "runtime_jar_sha256" j.runtimeLayerMetadata).getD (.str ""))
      j.runtimeJarExists = true := by
  rcases hb : build j with ⟨res, trace⟩
  rw [hb] at hok hw
  unfold build at hb
  repeat' split at hb
  all_goals injection hb with hr ht
  all_goals subst hr ht
  all_goals simp_all [isOkResult, runtimeWrites, runtimeLayerWrite, bundleLayerWrite,
    spawnDetector]

/-- An input identical to `baseInput` except that the detector is
terminated by a signal and reports no exit code. -/
def signalInput : BuildInput :=
  { baseInput with detectorExit := none }

/-- An input whose configured fingerprint is the empty string and whose
runtime jar already exists, so the cache check at line 70 passes. -/
def cacheHitInput : BuildInput :=
  { baseInput with
      runtimeTable := some [("sha256", .str ""), ("url", .str "https://x/runtime.jar")]
      runtimeJarExists := true }

/-- A configuration that has `metadata.runtime.sha256` (empty string) but
no `metadata.runtime.url` key, with the runtime jar already on disk. -/
def noUrlCacheHitInput : BuildInput :=
  { baseInput with
      runtimeTable := some [("sha256", .str "")]
      runtimeJarExists := true }

/-- A configuration that has `metadata.runtime.sha256` but no
`metadata.runtime.url` key, with nothing cached. -/
def noUrlInput : BuildInput :=
  { baseInput with runtimeTable := some [("sha256", .str "abc")] }

/-- C6: the cache-validity decision returns true iff the descriptor's
expected fingerprint equals the cached fingerprint and the artifact file
exists, on all combinations of inputs; it is a pure boolean function. -/
theorem cacheValid_iff_match_and_exists (d c : TomlVal) (e : Bool) :
    cacheValid d c e = true ↔ d = c ∧ e = true := by
  simp [cacheValid]

/-- C7: on every execution path, the runtime layer's facets
`(launch: true, build: false, cache: true)` together with its url metadata
are persisted before any download starts, and the function-bundle layer's
facets `(launch: true, build: false, cache: false)` are persisted before
the detector process is spawned. -/
theorem facets_persisted_before_effects (i : BuildInput) :
    precededBy isDownloadEv isRuntimeFacetWrite (build i).2 = true ∧
    precededBy isSpawnEv isBundleFacetWrite (build i).2 = true := by
  rcases hb : build i with ⟨res, trace⟩
  unfold build at hb
  repeat' split at hb
  all_goals injection hb with hr ht
  all_goals subst ht
  all_goals constructor
  all_goals simp [precededBy, isDownloadEv, isSpawnEv, isRuntimeFacetWrite, isBundleFacetWrite,
    runtimeLayerWrite, bundleLayerWrite, spawnDetector, getKey_insertKey]

/-- C1: contrary to the specified exit-status table, a detector that
terminates without an exit code (killed by a signal) is not classified as
`Unexpected` and is not fatal: the `if let Some(code)` block at line 142 is
skipped, the manifest is read anyway, and the phase succeeds. -/
theorem signal_termination_not_fatal :
    signalInput.detectorExit = none ∧
    isOkResult (build signalInput).1 = true ∧
    readsManifest (build signalInput).2 = true := by
  refine ⟨rfl, ?_, ?_⟩ <;> rfl

/-- C5: on a cache-hit run the detection step does not run at all: the
whole detection block is nested in the cache-miss branch, so the phase
succeeds with a trace holding only the construction of the (dropped)
launch value — no write, no download, and the detector is never
spawned. -/
theorem cache_hit_skips_detection :
    isOkResult (build cacheHitInput).1 = true ∧
    hasSpawn (build cacheHitInput).2 = false ∧
    (build cacheHitInput).2 =
      [.buildLaunch (assembleLaunch (runtimeJarStr cacheHitInput)
        cacheHitInput.functionBundlePath)] := by
  refine ⟨?_, ?_, ?_⟩ <;> rfl

/-- C2 counterexample: with the unchanged `baseInput` descriptor (expected
fingerprint "abc"), the first run succeeds and downloads, and the second
run — fed the layer state the first run left behind — downloads again and
writes metadata again, because the fingerprint was never persisted. -/
theorem second_invocation_fetches_again :
    isOkResult (build baseInput).1 = true ∧
    hasDownload (build baseInput).2 = true ∧
    hasDownload (build (secondRun baseInput)).2 = true ∧
    (runtimeWrites (build (secondRun baseInput)).2).length = 1 := by
  refine ⟨?_, ?_, ?_, ?_⟩ <;> rfl

/-- C3 counterexample: on the successful `baseInput` run the phase result
is the unit value — the launch descriptor is built (exactly once) but not
handed back as an output — and the boolean passed as the fourth argument
of `Process::new` at line 209 is `false`, so its single process entry does
not carry a true flag. -/
theorem launch_dropped_and_flag_false :
    (build baseInput).1 = .ok () ∧
    (launchBuilds (build baseInput).2).map (fun l => l.processes.map Process.direct) =
      [[false]] := by
  exact ⟨rfl, rfl⟩

/-- C4 counterexample: for runtime path `/layers/rt/runtime.jar` and unit
path `/layers/fn` the assembled command is not the claimed string with a
bare placeholder; the format string at line 202 puts a literal backslash
before the dollar sign. -/
theorem scenario_d_command_differs :
    launchCommand "/layers/rt/runtime.jar" "/layers/fn" ≠
      "java -jar /layers/rt/runtime.jar serve /layers/fn -p $\x7bPORT:-8080\x7d" ∧
    launchCommand "/layers/rt/runtime.jar" "/layers/fn" =
      "java -jar /layers/rt/runtime.jar serve /layers/fn -p \\$\x7bPORT:-8080\x7d" := by
  refine ⟨?_, rfl⟩
  decide

/-- C8 counterexample: with `metadata.runtime.url` absent but
`metadata.runtime.sha256` equal to the empty string and the jar on disk,
the cache check passes, the url key is never consulted, and the phase
succeeds instead of failing with a configuration error. -/
theorem missing_url_phase_succeeds :
    (noUrlCacheHitInput.runtimeTable.map (getKey "url")) = some none ∧
    isOkResult (build noUrlCacheHitInput).1 = true ∧
    hasDownload (build noUrlCacheHitInput).2 = false := by
  refine ⟨?_, ?_, ?_⟩ <;> rfl

/-- The cache decision the run makes at line 70, as a function of the
input: defined exactly when both config lookups succeed. -/
def cacheDecision (j : BuildInput) : Option Bool :=
  j.runtimeTable.bind fun rt =>
    (getKey "sha256" rt).map fun sha =>
      cacheValid sha ((getKey "runtime_jar_sha256" j.runtimeLayerMetadata).getD (.str ""))
        j.runtimeJarExists

/-- An input with the configured fingerprint equal to the empty string and
nothing cached yet; its first run misses the cache and downloads. -/
def emptyShaInput : BuildInput :=
  { baseInput with
      runtimeTable := some [("sha256", .str ""), ("url", .str "https://x/runtime.jar")] }

/-- An input for the manifest-failure scenario: the detector exits 0 but
left no `function-bundle.toml`. -/
def manifestMissingInput : BuildInput :=
  { baseInput with manifestFile := .missing }

/-- C2 (amended): the second invocation with an unchanged descriptor is a
cache hit — success with zero runtime-layer metadata writes and no
download — if and only if the configured expected fingerprint is the empty
string (the only value the defaulted cached fingerprint can ever equal,
since the expected fingerprint is never persisted) and `runtime.jar` is on
disk after the first run; the latter holds in particular whenever the
first run succeeded, but also after a first run that downloaded and then
failed detection. -/
theorem second_run_cache_hit_iff (i : BuildInput) (rt : List (String × TomlVal)) (sha : TomlVal)
    (h1 : i.runtimeTable = some rt)
    (h2 : getKey "sha256" rt = some sha)
    (h3 : getKey "runtime_jar_sha256" i.runtimeLayerMetadata = none) :
    (isOkResult (build (secondRun i)).1 = true ∧
        runtimeWrites (build (secondRun i)).2 = [] ∧
        hasDownload (build (secondRun i)).2 = false) ↔
      (sha = .str "" ∧ jarExistsAfter i = true) := by
  have hTable : (secondRun i).runtimeTable = some rt := by
    simpa [secondRun] using h1
  have hMeta : getKey "runtime_jar_sha256" (secondRun i).runtimeLayerMetadata = none :=
    metadataAfter_no_sha i h3
  constructor
  · rintro ⟨hok, hw, -⟩
    have hcv := ok_no_writes_cache_hit (secondRun i) rt sha hTable h2 hok hw
    rw [hMeta] at hcv
    simp [cacheValid] at hcv
    exact ⟨hcv.1, hcv.2⟩
  · rintro ⟨hsha, hjar⟩
    subst hsha
    have hjar2 : (secondRun i).runtimeJarExists = true := hjar
    have hcv : cacheValid (.str "")
        ((getKey "runtime_jar_sha256" (secondRun i).runtimeLayerMetadata).getD (.str ""))
        (secondRun i).runtimeJarExists = true := by
      rw [hMeta, hjar2]
      simp [cacheValid]
    simp [build, hTable, h2, hcv, isOkResult, runtimeWrites, hasDownload]

/-- Witness for the amended C2 theorem at a concrete input, in both
directions of the biconditional. -/
theorem second_run_cache_hit_witness :
    isOkResult (build (secondRun emptyShaInput)).1 = true ∧
    runtimeWrites (build (secondRun emptyShaInput)).2 = [] ∧
    hasDownload (build (secondRun emptyShaInput)).2 = false :=
  (second_run_cache_hit_iff emptyShaInput
    [("sha256", .str ""), ("url", .str "https://x/runtime.jar")] (.str "")
    rfl rfl rfl).mpr ⟨rfl, rfl⟩

/-- C3 (amended): every successful run constructs exactly one launch
descriptor, with a single process entry of type "web" whose boolean flag
(the fourth `Process::new` argument) is `false`; the descriptor is then
dropped — the phase's success value is unit, so the descriptor is not
handed back to the platform as an output. -/
theorem launch_built_once_not_returned (i : BuildInput)
    (h : isOkResult (build i).1 = true) :
    (build i).1 = .ok () ∧
    launchBuilds (build i).2 = [assembleLaunch (runtimeJarStr i) i.functionBundlePath] ∧
    (assembleLaunch (runtimeJarStr i) i.functionBundlePath).processes.length = 1 ∧
    ∀ p ∈ (assembleLaunch (runtimeJarStr i) i.functionBundlePath).processes,
      p.type = "web" ∧ p.direct = false := by
  obtain ⟨hu, hl⟩ := build_ok_unit_launchBuilds i h
  refine ⟨hu, hl, ?_, ?_⟩ <;> simp [assembleLaunch]

/-- Witness for the amended C3 theorem at a concrete input. -/
theorem launch_built_once_not_returned_witness :
    (build baseInput).1 = .ok () ∧
    launchBuilds (build baseInput).2 =
      [assembleLaunch (runtimeJarStr baseInput) baseInput.functionBundlePath] ∧
    (assembleLaunch (runtimeJarStr baseInput) baseInput.functionBundlePath).processes.length =
      1 ∧
    ∀ p ∈ (assembleLaunch (runtimeJarStr baseInput) baseInput.functionBundlePath).processes,
      p.type = "web" ∧ p.direct = false :=
  launch_built_once_not_returned baseInput rfl

/-- C4 (amended): the command of every launch value a run constructs is
`java -jar <runtime.jar> serve <bundle-layer> -p \$\x7bPORT:-8080\x7d` — the
placeholder is preserved for shell-time resolution but carries a literal
backslash before the dollar sign. -/
theorem launch_command_escaped_placeholder (i : BuildInput) (l : Launch)
    (h : l ∈ launchBuilds (build i).2) :
    l.processes.map Process.command =
      ["java -jar " ++ runtimeJarStr i ++ " serve " ++ i.functionBundlePath ++
        " -p \\$\x7bPORT:-8080\x7d"] := by
  rw [mem_launchBuilds_eq i l h]
  simp [assembleLaunch, launchCommand]

/-- Witness for the amended C4 theorem at a concrete input. -/
theorem launch_command_escaped_placeholder_witness :
    (assembleLaunch (runtimeJarStr baseInput) baseInput.functionBundlePath).processes.map
        Process.command =
      ["java -jar " ++ runtimeJarStr baseInput ++ " serve " ++ baseInput.functionBundlePath ++
        " -p \\$\x7bPORT:-8080\x7d"] :=
  launch_command_escaped_placeholder baseInput
    (assembleLaunch (runtimeJarStr baseInput) baseInput.functionBundlePath)
    (List.Mem.head _)

/-- C8 (amended): a missing `metadata.runtime.sha256` key always aborts
the phase before any side effect, and a missing `metadata.runtime.url` key
aborts it before any side effect whenever the cache check fails; on a
cache hit the url key is never consulted (see the C8 counterexample). -/
theorem missing_config_fails_before_network (i : BuildInput) (rt : List (String × TomlVal))
    (h1 : i.runtimeTable = some rt) :
    (getKey "sha256" rt = none → build i = (.error .missingSha256Key, [])) ∧
    (∀ sha, getKey "sha256" rt = some sha →
      getKey "url" rt = none →
      cacheValid sha ((getKey "runtime_jar_sha256" i.runtimeLayerMetadata).getD (.str ""))
          i.runtimeJarExists = false →
      build i = (.error .missingUrlKey, [])) := by
  constructor
  · intro h2
    simp [build, h1, h2]
  · intro sha h2 h3 hcv
    simp [build, h1, h2, h3, hcv]

/-- Witness for the amended C8 theorem at a concrete input. -/
theorem missing_config_fails_before_network_witness :
    build noUrlInput = (.error .missingUrlKey, []) :=
  (missing_config_fails_before_network noUrlInput [("sha256", .str "abc")] rfl).2
    (.str "abc") rfl rfl rfl

/-- C9: when the detector exits 0 but `function-bundle.toml` is missing or
malformed, the phase fails with a manifest read/parse error; that outcome
is neither a success nor any error the exit-code classification can
produce. -/
theorem manifest_failure_distinct (i : BuildInput) (rt : List (String × TomlVal))
    (sha url : TomlVal) (us : String)
    (h1 : i.runtimeTable = some rt)
    (h2 : getKey "sha256" rt = some sha)
    (h3 : cacheValid sha ((getKey "runtime_jar_sha256" i.runtimeLayerMetadata).getD (.str ""))
        i.runtimeJarExists = false)
    (h4 : getKey "url" rt = some url)
    (h5 : url.asStr = some us)
    (h6 : i.downloadOk = true)
    (h7 : i.detectorExit = some 0)
    (h8 : i.manifestFile = .missing ∨ i.manifestFile = .malformed) :
    ((build i).1 = .error .manifestReadFailed ∨ (build i).1 = .error .manifestParseFailed) ∧
    (build i).1 ≠ .ok () ∧
    (∀ c : Option Int, classifyExit c ≠ some .manifestReadFailed ∧
      classifyExit c ≠ some .manifestParseFailed) := by
  have hc : classifyExit i.detectorExit = none := by
    rw [h7]
    simp [classifyExit]
  refine ⟨?_, ?_, ?_⟩
  · rcases h8 with h8 | h8 <;> simp [build, h1, h2, h3, h4, h5, h6, hc, h8]
  · rcases h8 with h8 | h8 <;> simp [build, h1, h2, h3, h4, h5, h6, hc, h8]
  · intro c
    cases c with
    | none => simp [classifyExit]
    | some n =>
      constructor <;> (simp only [classifyExit]; repeat' split) <;> simp

/-- Witness for the C9 theorem at a concrete input. -/
theorem manifest_failure_distinct_witness :
    ((build manifestMissingInput).1 = .error .manifestReadFailed ∨
      (build manifestMissingInput).1 = .error .manifestParseFailed) ∧
    (build manifestMissingInput).1 ≠ .ok () ∧
    (∀ c : Option Int, classifyExit c ≠ some .manifestReadFailed ∧
      classifyExit c ≠ some .manifestParseFailed) :=
  manifest_failure_distinct manifestMissingInput
    [("sha256", .str "abc"), ("url", .str "https://x/runtime.jar")]
    (.str "abc") (.str "https://x/runtime.jar") "https://x/runtime.jar"
    rfl rfl rfl rfl rfl rfl rfl (Or.inl rfl)

/-- C10: no execution path ever persists the `runtime_jar_sha256` key, so
on the following run the cached fingerprint read defaults to the empty
string, and the cache decision of that run can only be true when the
configured `metadata.runtime.sha256` value is itself the empty string and
the artifact file exists. -/
theorem sha256_never_persisted (i : BuildInput) (rt : List (String × TomlVal)) (sha : TomlVal)
    (h0 : getKey "runtime_jar_sha256" i.runtimeLayerMetadata = none)
    (h1 : i.runtimeTable = some rt)
    (h2 : getKey "sha256" rt = some sha) :
    (∀ m ∈ runtimeWrites (build i).2, getKey "runtime_jar_sha256" m = none) ∧
    ((getKey "runtime_jar_sha256" (secondRun i).runtimeLayerMetadata).getD (.str "") = .str "") ∧
    (cacheDecision (secondRun i) = some true ↔
      sha = .str "" ∧ (secondRun i).runtimeJarExists = true) := by
  have hMeta : getKey "runtime_jar_sha256" (secondRun i).runtimeLayerMetadata = none :=
    metadataAfter_no_sha i h0
  have hTable : (secondRun i).runtimeTable = some rt := by
    simpa [secondRun] using h1
  refine ⟨?_, ?_, ?_⟩
  · intro m hm
    rcases runtimeWrites_shape i with h | ⟨v, h⟩
    · rw [h] at hm
      simp at hm
    · rw [h] at hm
      simp at hm
      subst hm
      rw [getKey_insertKey_ne _ _ _ _ (by decide)]
      exact h0
  · rw [hMeta]
    rfl
  · rw [cacheDecision, hTable]
    simp [h2, hMeta, cacheValid]

/-- Witness for the C10 theorem at a concrete input. -/
theorem sha256_never_persisted_witness :
    (∀ m ∈ runtimeWrites (build baseInput).2, getKey "runtime_jar_sha256" m = none) ∧
    ((getKey "runtime_jar_sha256" (secondRun baseInput).runtimeLayerMetadata).getD (.str "") =
      .str "") ∧
    (cacheDecision (secondRun baseInput) = some true ↔
      TomlVal.str "abc" = .str "" ∧ (secondRun baseInput).runtimeJarExists = true) :=
  sha256_never_persisted baseInput
    [("sha256", .str "abc"), ("url", .str "https://x/runtime.jar")] (.str "abc")
    rfl rfl rfl

end BpBuild
